import Mathlib

/-!
Verification development for the network-dashboard Device Status Engine.

The definitions below are a shallow embedding of the server in the
repository (the express server file): the `devices` and `logs` tables, the
`POST /api/agent/report` handler (the Report Reconciler), the `setInterval`
prober cycle (the Health Prober), and the log-retrieval queries.

Modelling conventions:
* timestamps are naturals, in milliseconds since the epoch (the server works
  with `Date` values and ISO strings; ordering and the millisecond arithmetic
  of the staleness guard are what matters);
* nullable columns (`last_seen`, `downtime_start`) are `Option Nat`;
* JavaScript falsiness of the report fields (`!report.ip || !report.status`)
  is modelled by `isBlank`: a field is blank when absent or the empty string;
* `report.latency || 0` is modelled by `Option.getD 0` (absent and `0` both
  give `0`);
* the socket broadcast `io.emit("device_update", ...)` is modelled by
  appending the emitted payload to an `events` trace; the prober emits a
  payload without `latency` and `downtime_start` fields, recorded as `none`;
* the SQL `ORDER BY timestamp DESC` is modelled by a stable insertion sort
  (`sortByTimestampDesc`), so rows with equal timestamps keep their insertion
  order; `LIMIT n` is `List.take n`;
* a probe of one device either returns a verdict (`some alive`) or throws
  (`none`), matching `ping.promise.probe` under the per-device `try/catch`.
-/

/-- Model of JavaScript `String.prototype.toLowerCase` (character-wise). -/
def toLowerCase (s : String) : String := String.mk (s.data.map Char.toLower)

/-- Row of the `devices` table. -/
structure Device where
  id : Nat
  name : String
  ip : String
  type : String
  status : String
  last_seen : Option Nat
  location : String
  latency : Int
  downtime_start : Option Nat
deriving Repr, DecidableEq

/-- Row of the `logs` table (`latency` defaults to `0` when the INSERT
omits it, as the prober's INSERT does). -/
structure LogEntry where
  id : Nat
  device_id : Nat
  status : String
  latency : Int
  timestamp : Nat
deriving Repr, DecidableEq

/-- Payload of an `io.emit("device_update", ...)` broadcast.  The agent
handler sends `latency` and `downtime_start`; the prober omits both, which
is recorded as `none` in those fields. -/
structure DeviceUpdateEvent where
  id : Nat
  status : String
  latency : Option Int
  downtime_start : Option (Option Nat)
  timestamp : Nat
deriving Repr, DecidableEq

/-- One element of the agent report batch: `{ ip, status, latency }`, each
field possibly absent. -/
structure RawReport where
  ip : Option String
  status : Option String
  latency : Option Int
deriving Repr, DecidableEq

/-- The persistent state: the `devices` and `logs` tables (with the next
autoincrement log id) together with the trace of broadcast events. -/
structure DB where
  devices : List Device
  logs : List LogEntry
  nextLogId : Nat
  events : List DeviceUpdateEvent
deriving Repr, DecidableEq

/-- The SQL `UPDATE devices SET ... WHERE id = ?`: rewrite the rows whose
`id` matches. -/
def DB.updateDevice (db : DB) (deviceId : Nat) (f : Device → Device) : DB :=
  { db with devices := db.devices.map (fun d => if d.id = deviceId then f d else d) }

/-- The SQL `INSERT INTO logs (device_id, status, latency, timestamp)`. -/
def DB.appendLog (db : DB) (deviceId : Nat) (st : String) (lat : Int) (ts : Nat) : DB :=
  { db with
      logs := db.logs ++ [{ id := db.nextLogId, device_id := deviceId, status := st,
                            latency := lat, timestamp := ts }],
      nextLogId := db.nextLogId + 1 }

/-- The broadcast `io.emit("device_update", ev)`. -/
def DB.emit (db : DB) (ev : DeviceUpdateEvent) : DB :=
  { db with events := db.events ++ [ev] }

/-- JavaScript falsiness of an optional string field: absent or empty. -/
def isBlank : Option String → Bool
  | none => true
  | some s => s.isEmpty

/-- Body of the inner `devices.forEach(device => ...)` of the agent-report
handler: compute the normalized status and the downtime bookkeeping, UPDATE
the device row, INSERT a log row when the status changed or the latency
moved by more than 50 ms, and emit the update event. -/
def processReportForDevice (timestamp : Nat) (st : String) (lat : Int)
    (db : DB) (device : Device) : DB :=
  let normalizedStatus := toLowerCase st
  let downtimeStart : Option Nat :=
    if normalizedStatus = "offline" ∧ device.downtime_start = none then some timestamp
    else if normalizedStatus = "online" then none
    else device.downtime_start
  let db1 := db.updateDevice device.id (fun d =>
    { d with last_seen := some timestamp, status := normalizedStatus,
             latency := lat, downtime_start := downtimeStart })
  let db2 :=
    if device.status ≠ normalizedStatus ∨ (device.latency - lat).natAbs > 50
    then db1.appendLog device.id normalizedStatus lat timestamp
    else db1
  db2.emit { id := device.id, status := normalizedStatus, latency := some lat,
             downtime_start := some downtimeStart, timestamp := timestamp }

/-- Body of `reports.forEach(report => ...)`: skip elements whose `ip` or
`status` is falsy, otherwise SELECT the devices sharing the reported address
and apply the observation to each. -/
def processReport (timestamp : Nat) (db : DB) (report : RawReport) : DB :=
  if isBlank report.ip || isBlank report.status then db
  else
    let matched := db.devices.filter (fun d => d.ip == report.ip.getD "")
    matched.foldl
      (processReportForDevice timestamp (report.status.getD "") (report.latency.getD 0)) db

/-- The `POST /api/agent/report` handler.  A payload that is not an array is
rejected with status 400 and no state change; an array is folded through
`processReport` and acknowledged with status 200. -/
def agentReport (payload : Option (List RawReport)) (timestamp : Nat) (db : DB) :
    Nat × DB :=
  match payload with
  | none => (400, db)
  | some reports => (200, reports.foldl (processReport timestamp) db)

/-- Staleness guard of the prober: `device.last_seen && !isSimulation` and
`(now - lastSeen) / 1000 < 600`. -/
def skipFresh (isSimulation : Bool) (now : Nat) (device : Device) : Bool :=
  match device.last_seen with
  | none => false
  | some ls => !isSimulation && decide (((now : Int) - (ls : Int)) < 600000)

/-- Status resolution of one prober iteration: in simulation mode the status
is synthesized as online without consulting the probe; otherwise the probe
either yields a verdict (`some alive`) or throws (`none`). -/
def resolveStatus (isSimulation : Bool) (probe : Device → Option Bool)
    (device : Device) : Option String :=
  if isSimulation then some "online"
  else (probe device).map (fun alive => if alive then "online" else "offline")

/-- Body of the prober's `for (const device of devices)` loop for one device:
skip fresh devices, resolve a status (a thrown probe is caught and yields no
verdict), and on a status change UPDATE `status` and `last_seen`, INSERT a
log row (latency left at its default 0) and emit the update event. -/
def proberDeviceStep (isSimulation : Bool) (now : Nat) (probe : Device → Option Bool)
    (db : DB) (device : Device) : DB :=
  if skipFresh isSimulation now device then db
  else
    match resolveStatus isSimulation probe device with
    | none => db
    | some newStatus =>
      if newStatus ≠ device.status then
        ((db.updateDevice device.id (fun d =>
            { d with status := newStatus, last_seen := some now })).appendLog
          device.id newStatus 0 now).emit
          { id := device.id, status := newStatus, latency := none,
            downtime_start := none, timestamp := now }
      else db

/-- One `setInterval` prober cycle: SELECT the device snapshot once, then
process each snapshot row in order. -/
def proberCycle (isSimulation : Bool) (now : Nat) (probe : Device → Option Bool)
    (db : DB) : DB :=
  db.devices.foldl (proberDeviceStep isSimulation now probe) db

/-- Stable descending insertion by timestamp: the new row goes in front of
the first strictly older row, hence after all rows with its timestamp. -/
def insertDesc (x : LogEntry) : List LogEntry → List LogEntry
  | [] => [x]
  | y :: ys => if y.timestamp < x.timestamp then x :: y :: ys else y :: insertDesc x ys

/-- Model of the SQL `ORDER BY timestamp DESC` over rows listed in insertion
order: a stable sort, so equal timestamps keep insertion order. -/
def sortByTimestampDesc (l : List LogEntry) : List LogEntry :=
  l.foldl (fun acc x => insertDesc x acc) []

/-- The `GET /api/logs/:deviceId` query:
`SELECT * FROM logs WHERE device_id = ? ORDER BY timestamp DESC LIMIT 50`. -/
def recent (db : DB) (deviceId : Nat) : List LogEntry :=
  (sortByTimestampDesc (db.logs.filter (fun e => e.device_id == deviceId))).take 50

/-- Modelled from the spec: the server source contains no
`/api/logs-global/downtime` route (the dashboard calls it, but only the
caller is present), so the global recent-log view is taken from the spec's
contract for `recent_global(limit)`: the offline log entries, most recent
first, each joined with its device's name and address, truncated to
`limit`. -/
def recent_global (db : DB) (limit : Nat) : List (LogEntry × String × String) :=
  ((sortByTimestampDesc (db.logs.filter (fun e => e.status == "offline"))).take limit).map
    (fun e =>
      match db.devices.find? (fun d => d.id == e.device_id) with
      | some d => (e, d.name, d.ip)
      | none => (e, "", ""))

/-! ## Sample states used by witnesses and counterexamples -/

/-- Seed device in its initial online state. -/
def backupServer : Device :=
  { id := 1, name := "Backup Server", ip := "192.168.1.100", type := "server",
    status := "online", last_seen := none, location := "Basement",
    latency := 0, downtime_start := none }

/-- Store holding just the seed device. -/
def dbSeed : DB := { devices := [backupServer], logs := [], nextLogId := 1, events := [] }

/-- Device recently refreshed by an agent. -/
def deviceFresh : Device :=
  { id := 2, name := "Edge Router", ip := "10.0.0.1", type := "router",
    status := "online", last_seen := some 1000, location := "Main Office",
    latency := 0, downtime_start := none }

/-- Store holding just the fresh device. -/
def dbFresh : DB := { devices := [deviceFresh], logs := [], nextLogId := 1, events := [] }

/-! ## C2: log-worthiness of an agent observation -/

/-- Claim C2: for an agent-report element applied to one matching device, a
Log Entry is appended if and only if the normalized reported status differs
from the device's previous status or the absolute latency delta exceeds
50 ms; the appended entry carries the normalized status, the reported
latency and the observation timestamp. -/
theorem agent_log_iff (ts : Nat) (st : String) (lat : Int) (db : DB) (device : Device) :
    (processReportForDevice ts st lat db device).logs =
      (if device.status ≠ toLowerCase st ∨ (device.latency - lat).natAbs > 50
       then db.logs ++ [{ id := db.nextLogId, device_id := device.id,
                          status := toLowerCase st, latency := lat, timestamp := ts }]
       else db.logs) := by
  simp only [processReportForDevice, DB.emit, DB.appendLog, DB.updateDevice]
  split <;> rfl

/-! ## C4: batch validation and per-element skipping -/

/-- Claim C4: agent-report ingestion returns 400 exactly when the payload is
not a list (and leaves the store untouched); a list payload is acknowledged
with 200; an element with a falsy address or status is skipped without any
state change. -/
theorem agentReport_validation (ts : Nat) (db : DB) :
    agentReport none ts db = (400, db)
    ∧ (∀ reports : List RawReport, (agentReport (some reports) ts db).1 = 200)
    ∧ (∀ (db2 : DB) (r : RawReport), (isBlank r.ip || isBlank r.status) = true →
        processReport ts db2 r = db2) := by
  refine ⟨rfl, fun _ => rfl, fun db2 r h => ?_⟩
  simp [processReport, h]

/-- Witness for C4: a concrete element missing its status is skipped without
mutating the store. -/
theorem agentReport_validation_witness :
    processReport 7 dbSeed { ip := some "192.168.1.100", status := none, latency := none }
      = dbSeed :=
  (agentReport_validation 7 dbSeed).2.2 dbSeed
    { ip := some "192.168.1.100", status := none, latency := none } (by decide)

/-! ## C5: prober staleness guard -/

/-- Claim C5: with simulation off, a device whose `last_seen` is non-null and
less than 600 seconds (600000 ms) before the cycle's start time is skipped:
the prober step leaves the whole store unchanged, for every probe oracle. -/
theorem prober_staleness_guard (now : Nat) (probe : Device → Option Bool)
    (db : DB) (device : Device) (ls : Nat)
    (h1 : device.last_seen = some ls) (h2 : ((now : Int) - (ls : Int)) < 600000) :
    proberDeviceStep false now probe db device = db := by
  have hs : skipFresh false now device = true := by
    simp [skipFresh, h1, h2]
  simp [proberDeviceStep, hs]

/-- Witness for C5: a device refreshed 1 second before the cycle is skipped. -/
theorem prober_staleness_guard_witness :
    proberDeviceStep false 2000 (fun _ => some false) dbFresh deviceFresh = dbFresh :=
  prober_staleness_guard 2000 (fun _ => some false) dbFresh deviceFresh 1000 rfl (by decide)

/-! ## Shape lemmas for one prober step -/

/-- Helper: a fresh device is skipped. -/
theorem proberDeviceStep_skip {sim : Bool} {now : Nat} {probe : Device → Option Bool}
    {db : DB} {device : Device} (hs : skipFresh sim now device = true) :
    proberDeviceStep sim now probe db device = db := by
  simp [proberDeviceStep, hs]

/-- Helper: a thrown probe yields no verdict and no state change. -/
theorem proberDeviceStep_noverdict {sim : Bool} {now : Nat} {probe : Device → Option Bool}
    {db : DB} {device : Device} (hres : resolveStatus sim probe device = none) :
    proberDeviceStep sim now probe db device = db := by
  cases hs : skipFresh sim now device <;> simp [proberDeviceStep, hs, hres]

/-- Helper: an unchanged status produces no write at all. -/
theorem proberDeviceStep_unchanged {sim : Bool} {now : Nat} {probe : Device → Option Bool}
    {db : DB} {device : Device}
    (hres : resolveStatus sim probe device = some device.status) :
    proberDeviceStep sim now probe db device = db := by
  cases hs : skipFresh sim now device <;> simp [proberDeviceStep, hs, hres]

/-- Helper: a changed status updates `status` and `last_seen`, appends a log
row with default latency 0 and emits a latency-free event. -/
theorem proberDeviceStep_changed {sim : Bool} {now : Nat} {probe : Device → Option Bool}
    {db : DB} {device : Device} {ns : String}
    (hs : skipFresh sim now device = false)
    (hres : resolveStatus sim probe device = some ns) (hch : ns ≠ device.status) :
    proberDeviceStep sim now probe db device =
      { devices := db.devices.map (fun d =>
          if d.id = device.id then { d with status := ns, last_seen := some now } else d),
        logs := db.logs ++ [{ id := db.nextLogId, device_id := device.id, status := ns,
                              latency := 0, timestamp := now }],
        nextLogId := db.nextLogId + 1,
        events := db.events ++ [{ id := device.id, status := ns, latency := none,
                                  downtime_start := none, timestamp := now }] } := by
  simp [proberDeviceStep, hs, hres, hch, DB.updateDevice, DB.appendLog, DB.emit]

/-! ## C10: frame of the prober path -/

/-- Claim C10: a prober step never changes any device's `latency`,
`downtime_start`, `name`, `ip`, `type` or `location` (it writes only
`status` and `last_seen`), and every log row it appends carries the default
latency 0 rather than a measured value. -/
theorem prober_frame (sim : Bool) (now : Nat) (probe : Device → Option Bool)
    (db : DB) (device : Device) :
    ((proberDeviceStep sim now probe db device).devices.map
        (fun x => (x.latency, x.downtime_start, x.name, x.ip, x.type, x.location))
      = db.devices.map
        (fun x => (x.latency, x.downtime_start, x.name, x.ip, x.type, x.location)))
    ∧ (((proberDeviceStep sim now probe db device).logs.drop db.logs.length).all
        (fun e => e.latency == 0)) = true := by
  cases hs : skipFresh sim now device with
  | true => simp [proberDeviceStep_skip hs, List.drop_length]
  | false =>
    cases hres : resolveStatus sim probe device with
    | none => simp [proberDeviceStep_noverdict hres, List.drop_length]
    | some ns =>
      by_cases hch : ns = device.status
      · subst hch
        simp [proberDeviceStep_unchanged hres, List.drop_length]
      · rw [proberDeviceStep_changed hs hres hch]
        refine ⟨?_, ?_⟩
        · rw [List.map_map]
          refine List.map_congr_left (fun x _ => ?_)
          by_cases hx : x.id = device.id <;> simp [hx]
        · show ((db.logs ++ _).drop db.logs.length).all _ = true
          rw [List.drop_left]
          rfl

/-! ## C1: the downtime-start invariant fails on the prober path -/

/-- Counterexample to claim C1: starting from the seeded store, an agent
report takes the device offline at time 100 (setting `downtime_start`), and
a later prober cycle in simulation mode transitions it back to online
without clearing `downtime_start` (the prober's UPDATE writes only `status`
and `last_seen`).  The resulting store has a device whose status is online
while `downtime_start` is still non-null, so the stated invariant is not
preserved by sequences that include prober updates. -/
theorem downtime_invariant_counterexample :
    ((proberCycle true 700 (fun _ => none)
        (agentReport (some [{ ip := some "192.168.1.100", status := some "offline",
                              latency := some 0 }]) 100 dbSeed).2).devices.map
      (fun d => (d.status, d.downtime_start))) = [("online", some 100)] := by decide

/-! ## C3: unchanged observations and the last-seen refresh -/

/-- Counterexample to claim C3: a prober observation (simulation off, probe
alive) whose status equals the device's current status and whose latency
delta is 0 ≤ 50 ms leaves the store entirely unchanged — in particular it
does not update `last_seen`, contradicting the claim for the prober source. -/
theorem refresh_last_seen_counterexample :
    proberCycle false 1000 (fun _ => some true) dbSeed = dbSeed := by decide

/-- Claim C3 as amended: an agent observation whose normalized status equals
the device's current status and whose absolute latency delta is at most
50 ms never appends a Log Entry, yet still refreshes the matching device's
`last_seen` and `latency` (all other devices untouched); the prober path, by
contrast, performs no write at all when the resolved status is unchanged —
in particular it does not refresh `last_seen`. -/
theorem agent_refresh_no_log (ts : Nat) (st : String) (lat : Int) (db : DB) (device : Device)
    (h1 : toLowerCase st = device.status)
    (h2 : (device.latency - lat).natAbs ≤ 50) :
    (processReportForDevice ts st lat db device).logs = db.logs
    ∧ (processReportForDevice ts st lat db device).devices.map
        (fun x => (x.id, x.last_seen, x.latency))
      = db.devices.map (fun x =>
          if x.id = device.id then (x.id, some ts, lat) else (x.id, x.last_seen, x.latency))
    ∧ ∀ (sim : Bool) (now : Nat) (probe : Device → Option Bool) (db2 : DB) (d2 : Device),
        resolveStatus sim probe d2 = some d2.status →
        proberDeviceStep sim now probe db2 d2 = db2 := by
  have hcond : ¬(device.status ≠ toLowerCase st ∨ (device.latency - lat).natAbs > 50) := by
    push_neg
    exact ⟨h1.symm, h2⟩
  refine ⟨?_, ?_, fun sim now probe db2 d2 hres => proberDeviceStep_unchanged hres⟩
  · simp [processReportForDevice, DB.emit, DB.appendLog, DB.updateDevice, hcond]
  · simp only [processReportForDevice, DB.emit, DB.updateDevice, hcond, if_false,
      List.map_map]
    refine List.map_congr_left (fun x _ => ?_)
    by_cases hx : x.id = device.id <;> simp [hx]

/-- Witness for the amended C3: a report repeating the seed device's online
status with latency 30 (delta 30 ≤ 50) appends no log row. -/
theorem agent_refresh_no_log_witness :
    (processReportForDevice 200 "online" 30 dbSeed backupServer).logs = dbSeed.logs :=
  (agent_refresh_no_log 200 "online" 30 dbSeed backupServer (by decide) (by decide)).1

/-! ## C7: per-device isolation of probe failures -/

/-- Claim C7: a probe that throws for one device (no verdict) leaves every
field of the store unchanged for that device, and the cycle's fold over the
remaining devices proceeds exactly as if the failed device were absent. -/
theorem prober_exception_isolated (now : Nat) (probe : Device → Option Bool)
    (device : Device) (hprobe : probe device = none) :
    (∀ db : DB, proberDeviceStep false now probe db device = db)
    ∧ ∀ (l1 l2 : List Device) (db0 : DB),
        List.foldl (proberDeviceStep false now probe) db0 (l1 ++ device :: l2)
        = List.foldl (proberDeviceStep false now probe) db0 (l1 ++ l2) := by
  have hres : resolveStatus false probe device = none := by
    simp [resolveStatus, hprobe]
  refine ⟨fun db => proberDeviceStep_noverdict hres, fun l1 l2 db0 => ?_⟩
  rw [List.foldl_append, List.foldl_append, List.foldl_cons,
    proberDeviceStep_noverdict hres]

/-- Witness for C7: with a probe that throws on every device, a cycle over
the failed device followed by another device equals the cycle over just the
other device. -/
theorem prober_exception_isolated_witness :
    List.foldl (proberDeviceStep false 2000 (fun _ => none)) dbSeed
        ([] ++ backupServer :: [deviceFresh])
    = List.foldl (proberDeviceStep false 2000 (fun _ => none)) dbSeed ([] ++ [deviceFresh]) :=
  (prober_exception_isolated 2000 (fun _ => none) backupServer rfl).2 [] [deviceFresh] dbSeed

/-! ## C6: simulation-mode cycles -/

/-- Helper: the staleness guard never skips in simulation mode. -/
theorem skipFresh_sim (now : Nat) (device : Device) :
    skipFresh true now device = false := by
  cases h : device.last_seen <;> simp [skipFresh, h]

/-- Helper: in simulation mode every resolution is online, for any probe. -/
theorem resolveStatus_sim (probe : Device → Option Bool) (device : Device) :
    resolveStatus true probe device = some "online" := by
  simp [resolveStatus]

/-- Helper: fold invariant for a simulation cycle — provided the pending
snapshot still agrees with the store and ids are distinct, every device of
the folded store ends up online. -/
theorem sim_cycle_aux (now : Nat) (probe : Device → Option Bool) (snap : List Device) :
    ∀ dbacc : DB,
      (∀ x ∈ dbacc.devices, x.id ∈ snap.map (fun d => d.id) ∨ x.status = "online") →
      (∀ d ∈ snap, ∀ x ∈ dbacc.devices, x.id = d.id → x.status = d.status) →
      (snap.map (fun d => d.id)).Nodup →
      ∀ x ∈ (snap.foldl (proberDeviceStep true now probe) dbacc).devices,
        x.status = "online" := by
  induction snap with
  | nil =>
    intro dbacc h1 _ _ x hx
    rcases h1 x hx with h | h
    · simp at h
    · exact h
  | cons d rest ih =>
    intro dbacc h1 h2 h3 x hx
    rw [List.foldl_cons] at hx
    by_cases hd : d.status = "online"
    · rw [proberDeviceStep_unchanged (by rw [hd]; exact resolveStatus_sim probe d)] at hx
      refine ih dbacc ?_ ?_ (List.nodup_cons.mp h3).2 x hx
      · intro y hy
        rcases h1 y hy with h | h
        · rcases List.mem_map.mp h with ⟨z, hz, hzy⟩
          rcases List.mem_cons.mp hz with hzeq | hz2
          · right
            have hyd : y.id = d.id := by rw [← hzy, hzeq]
            rw [h2 d (List.mem_cons_self d rest) y hy hyd, hd]
          · left
            exact List.mem_map.mpr ⟨z, hz2, hzy⟩
        · right; exact h
      · intro d' hd' y hy hid
        exact h2 d' (List.mem_cons_of_mem _ hd') y hy hid
    · rw [proberDeviceStep_changed (skipFresh_sim now d) (resolveStatus_sim probe d)
        (fun he => hd he.symm)] at hx
      refine ih _ ?_ ?_ (List.nodup_cons.mp h3).2 x hx
      · intro y hy
        rcases List.mem_map.mp hy with ⟨z, hz, hzy⟩
        subst hzy
        by_cases hz_id : z.id = d.id
        · right; simp [hz_id]
        · simp only [hz_id, if_false]
          rcases h1 z hz with h | h
          · rcases List.mem_map.mp h with ⟨w, hw, hwz⟩
            rcases List.mem_cons.mp hw with hweq | hw2
            · exact absurd ((hweq ▸ hwz : d.id = z.id)).symm hz_id
            · left; exact List.mem_map.mpr ⟨w, hw2, hwz⟩
          · right; exact h
      · intro d' hd' y hy hid
        rcases List.mem_map.mp hy with ⟨z, hz, hzy⟩
        subst hzy
        by_cases hz_id : z.id = d.id
        · exfalso
          have hzd' : z.id = d'.id := by
            simpa [hz_id] using hid
          exact (List.nodup_cons.mp h3).1
            (List.mem_map.mpr ⟨d', hd', (hz_id ▸ hzd').symm⟩)
        · simp only [hz_id, if_false] at hid ⊢
          exact h2 d' (List.mem_cons_of_mem _ hd') z hz hid

/-- Claim C6: with the simulation flag on, a prober step is independent of
the probe oracle (no reachability probe is consulted); a device already
online is left untouched (no Log Entry); a device not already online is
updated to online with a Log Entry appended and a change event emitted; and
a whole simulation cycle over a store with distinct device ids leaves every
device's status online. -/
theorem simulation_cycle (now : Nat) (probe probe2 : Device → Option Bool)
    (db : DB) (device : Device) :
    proberDeviceStep true now probe db device = proberDeviceStep true now probe2 db device
    ∧ (device.status = "online" → proberDeviceStep true now probe db device = db)
    ∧ (device.status ≠ "online" →
        proberDeviceStep true now probe db device =
          { devices := db.devices.map (fun d =>
              if d.id = device.id then { d with status := "online", last_seen := some now }
              else d),
            logs := db.logs ++ [{ id := db.nextLogId, device_id := device.id,
                                  status := "online", latency := 0, timestamp := now }],
            nextLogId := db.nextLogId + 1,
            events := db.events ++ [{ id := device.id, status := "online", latency := none,
                                      downtime_start := none, timestamp := now }] })
    ∧ ((db.devices.map (fun d => d.id)).Nodup →
        ∀ x ∈ (proberCycle true now probe db).devices, x.status = "online") := by
  refine ⟨?_,
    fun h => proberDeviceStep_unchanged (by rw [h]; exact resolveStatus_sim probe device),
    fun h => proberDeviceStep_changed (skipFresh_sim now device)
      (resolveStatus_sim probe device) (fun he => h he.symm),
    fun hnd => ?_⟩
  · by_cases h : device.status = "online"
    · rw [proberDeviceStep_unchanged (by rw [h]; exact resolveStatus_sim probe device),
        proberDeviceStep_unchanged (by rw [h]; exact resolveStatus_sim probe2 device)]
    · rw [proberDeviceStep_changed (skipFresh_sim now device)
          (resolveStatus_sim probe device) (fun he => h he.symm),
        proberDeviceStep_changed (skipFresh_sim now device)
          (resolveStatus_sim probe2 device) (fun he => h he.symm)]
  · refine sim_cycle_aux now probe db.devices db
      (fun x hx => Or.inl (List.mem_map_of_mem _ hx)) ?_ hnd
    intro d hd x hx hid
    rw [List.inj_on_of_nodup_map hnd hx hd hid]

/-- Offline device used to exercise the simulation cycle. -/
def deviceDown : Device :=
  { id := 3, name := "Access Point North", ip := "192.168.1.50", type := "ap",
    status := "offline", last_seen := some 100, location := "Floor 2",
    latency := 5, downtime_start := some 50 }

/-- Store holding just the offline device. -/
def dbDown : DB := { devices := [deviceDown], logs := [], nextLogId := 1, events := [] }

/-- Witness for C6: a simulation cycle over the one-device offline store
leaves that device online. -/
theorem simulation_cycle_witness :
    ({ deviceDown with status := "online", last_seen := some 900 } : Device).status
      = "online" :=
  (simulation_cycle 900 (fun _ => some false) (fun _ => none) dbDown deviceDown).2.2.2
    (by decide) { deviceDown with status := "online", last_seen := some 900 } (by decide)

/-! ## C1 amended: downtime bookkeeping along the agent path -/

/-- Helper: applying one agent observation whose normalized status is online
or offline to one matching device preserves the invariant that
`downtime_start` is non-null exactly on offline devices. -/
theorem inv_processReportForDevice (ts : Nat) (st : String) (lat : Int)
    (db : DB) (device : Device)
    (hst : toLowerCase st = "online" ∨ toLowerCase st = "offline")
    (h : ∀ d ∈ db.devices, (d.downtime_start ≠ none ↔ d.status = "offline")) :
    ∀ d ∈ (processReportForDevice ts st lat db device).devices,
      (d.downtime_start ≠ none ↔ d.status = "offline") := by
  intro d hd
  have hd2 : d ∈ (db.updateDevice device.id (fun x =>
      { x with last_seen := some ts, status := toLowerCase st, latency := lat,
               downtime_start :=
                 if toLowerCase st = "offline" ∧ device.downtime_start = none then some ts
                 else if toLowerCase st = "online" then none
                 else device.downtime_start })).devices := by
    revert hd
    simp only [processReportForDevice, DB.emit, DB.appendLog, DB.updateDevice]
    split <;> exact fun hd => hd
  rcases List.mem_map.mp hd2 with ⟨y, hy, hyd⟩
  by_cases hy_id : y.id = device.id
  · rw [← hyd]
    simp only [hy_id, if_true]
    rcases hst with hon | hoff
    · rw [hon]
      simp
    · rw [hoff]
      cases hdt : device.downtime_start <;> simp [hdt]
  · rw [← hyd]
    simp only [hy_id, if_false]
    exact h y hy

/-- Helper: folding one agent observation over all matching devices
preserves the downtime invariant. -/
theorem inv_foldMatched (ts : Nat) (st : String) (lat : Int)
    (hst : toLowerCase st = "online" ∨ toLowerCase st = "offline") :
    ∀ (matched : List Device) (db : DB),
      (∀ d ∈ db.devices, (d.downtime_start ≠ none ↔ d.status = "offline")) →
      ∀ d ∈ (matched.foldl (processReportForDevice ts st lat) db).devices,
        (d.downtime_start ≠ none ↔ d.status = "offline") := by
  intro matched
  induction matched with
  | nil => intro db h; exact h
  | cons m rest ih =>
    intro db h
    rw [List.foldl_cons]
    exact ih _ (inv_processReportForDevice ts st lat db m hst h)

/-- Helper: one report element preserves the downtime invariant when its
status (if not skipped) normalizes to online or offline. -/
theorem inv_processReport (ts : Nat) (db : DB) (r : RawReport)
    (hr : (isBlank r.ip || isBlank r.status) = false →
      toLowerCase (r.status.getD "") = "online" ∨ toLowerCase (r.status.getD "") = "offline")
    (h : ∀ d ∈ db.devices, (d.downtime_start ≠ none ↔ d.status = "offline")) :
    ∀ d ∈ (processReport ts db r).devices,
      (d.downtime_start ≠ none ↔ d.status = "offline") := by
  cases hb : (isBlank r.ip || isBlank r.status) with
  | true => simpa [processReport, hb] using h
  | false =>
    have := inv_foldMatched ts (r.status.getD "") (r.latency.getD 0) (hr hb)
      (db.devices.filter (fun d => d.ip == r.ip.getD "")) db h
    simpa [processReport, hb] using this

/-- Claim C1 as amended: along the agent-report path, for batches all of
whose non-skipped elements report a status normalizing to online or offline,
the invariant that `downtime_start` is non-null exactly when the status is
offline is preserved for every device.  (As the counterexample shows, the
prober path does not preserve it, because its UPDATE never writes
`downtime_start`; likewise agent statuses outside online and offline
overwrite the status while keeping the old `downtime_start`.) -/
theorem downtime_invariant_agent (reports : List RawReport) (ts : Nat) (db : DB)
    (hinv : ∀ d ∈ db.devices, (d.downtime_start ≠ none ↔ d.status = "offline"))
    (hrep : ∀ r ∈ reports, (isBlank r.ip || isBlank r.status) = false →
      toLowerCase (r.status.getD "") = "online" ∨ toLowerCase (r.status.getD "") = "offline") :
    ∀ d ∈ (agentReport (some reports) ts db).2.devices,
      (d.downtime_start ≠ none ↔ d.status = "offline") := by
  show ∀ d ∈ (reports.foldl (processReport ts) db).devices, _
  induction reports generalizing db with
  | nil => exact hinv
  | cons r rest ih =>
    rw [List.foldl_cons]
    exact ih _ (inv_processReport ts db r (hrep r (List.mem_cons_self r rest)) hinv)
      (fun r2 h2 => hrep r2 (List.mem_cons_of_mem _ h2))

/-- Post-report state of the seed device, used by the C1 witness. -/
def backupServerDown : Device :=
  { backupServer with last_seen := some 100, status := "offline", downtime_start := some 100 }

/-- Witness for the amended C1: the seed store satisfies the invariant and a
concrete offline report keeps it; the resulting device is offline with
`downtime_start` set. -/
theorem downtime_invariant_agent_witness :
    (backupServerDown.downtime_start ≠ none ↔ backupServerDown.status = "offline") :=
  downtime_invariant_agent
    [{ ip := some "192.168.1.100", status := some "offline", latency := some 0 }] 100 dbSeed
    (by decide) (by decide) backupServerDown (by decide)

/-! ## Ordering of the log queries (C8, C9) -/

/-- Helper: unfolding of `insertDesc` when the head is strictly older. -/
theorem insertDesc_cons_pos {x y : LogEntry} {ys : List LogEntry}
    (hc : y.timestamp < x.timestamp) :
    insertDesc x (y :: ys) = x :: y :: ys := by
  simp [insertDesc, hc]

/-- Helper: unfolding of `insertDesc` when the head is not strictly older. -/
theorem insertDesc_cons_neg {x y : LogEntry} {ys : List LogEntry}
    (hc : ¬ y.timestamp < x.timestamp) :
    insertDesc x (y :: ys) = y :: insertDesc x ys := by
  simp [insertDesc, hc]

/-- Helper: members of an insertion are the inserted row or old members. -/
theorem mem_insertDesc {x z : LogEntry} : ∀ {l : List LogEntry},
    z ∈ insertDesc x l → z = x ∨ z ∈ l := by
  intro l
  induction l with
  | nil => intro h; simpa [insertDesc] using h
  | cons y ys ih =>
    intro h
    by_cases hc : y.timestamp < x.timestamp
    · rw [insertDesc_cons_pos hc] at h
      rcases List.mem_cons.mp h with h1 | h1
      · exact Or.inl h1
      · exact Or.inr h1
    · rw [insertDesc_cons_neg hc] at h
      rcases List.mem_cons.mp h with h1 | h1
      · exact Or.inr (h1 ▸ List.mem_cons_self y ys)
      · rcases ih h1 with h2 | h2
        · exact Or.inl h2
        · exact Or.inr (List.mem_cons_of_mem _ h2)

/-- Helper: members of the sorting fold come from the seed or the input. -/
theorem mem_sortAux : ∀ (l acc : List LogEntry) (z : LogEntry),
    z ∈ l.foldl (fun acc x => insertDesc x acc) acc → z ∈ acc ∨ z ∈ l := by
  intro l
  induction l with
  | nil => intro acc z h; exact Or.inl h
  | cons x xs ih =>
    intro acc z h
    rw [List.foldl_cons] at h
    rcases ih _ z h with h1 | h1
    · rcases mem_insertDesc h1 with h2 | h2
      · exact Or.inr (h2 ▸ List.mem_cons_self x xs)
      · exact Or.inl h2
    · exact Or.inr (List.mem_cons_of_mem _ h1)

/-- Helper: the sorted list holds only rows of the input. -/
theorem mem_sortByTimestampDesc {z : LogEntry} {l : List LogEntry}
    (h : z ∈ sortByTimestampDesc l) : z ∈ l := by
  rcases mem_sortAux l [] z h with h1 | h1
  · simp at h1
  · exact h1

/-- Helper: insertion preserves weak descending order by timestamp. -/
theorem pairwise_insertDesc_ts {x : LogEntry} {l : List LogEntry}
    (h : List.Pairwise (fun a b => b.timestamp ≤ a.timestamp) l) :
    List.Pairwise (fun a b => b.timestamp ≤ a.timestamp) (insertDesc x l) := by
  induction l with
  | nil => simp [insertDesc]
  | cons y ys ih =>
    rcases List.pairwise_cons.mp h with ⟨hy, hys⟩
    by_cases hc : y.timestamp < x.timestamp
    · rw [insertDesc_cons_pos hc]
      refine List.pairwise_cons.mpr ⟨?_, h⟩
      intro z hz
      rcases List.mem_cons.mp hz with hzy | hzys
      · rw [hzy]; exact Nat.le_of_lt hc
      · exact Nat.le_trans (hy z hzys) (Nat.le_of_lt hc)
    · rw [insertDesc_cons_neg hc]
      refine List.pairwise_cons.mpr ⟨?_, ih hys⟩
      intro z hz
      rcases mem_insertDesc hz with hzx | hzys
      · rw [hzx]; exact Nat.not_lt.mp hc
      · exact hy z hzys

/-- Helper: the sorting fold yields weak descending order by timestamp. -/
theorem pairwise_sortAux_ts : ∀ (l acc : List LogEntry),
    List.Pairwise (fun a b => b.timestamp ≤ a.timestamp) acc →
    List.Pairwise (fun a b => b.timestamp ≤ a.timestamp)
      (l.foldl (fun acc x => insertDesc x acc) acc) := by
  intro l
  induction l with
  | nil => intro acc h; exact h
  | cons x xs ih =>
    intro acc h
    rw [List.foldl_cons]
    exact ih _ (pairwise_insertDesc_ts h)

/-- Helper: the sorted log list is weakly descending by timestamp. -/
theorem pairwise_sort_ts (l : List LogEntry) :
    List.Pairwise (fun a b => b.timestamp ≤ a.timestamp) (sortByTimestampDesc l) :=
  pairwise_sortAux_ts l [] List.Pairwise.nil

/-- Helper: inserting a row with a larger id than everything present
preserves the lexicographic order: strictly newer first, ties in ascending
(insertion) id order. -/
theorem pairwise_insertDesc_lex {x : LogEntry} {l : List LogEntry}
    (hid : ∀ y ∈ l, y.id < x.id)
    (h : List.Pairwise (fun a b => b.timestamp < a.timestamp
        ∨ (a.timestamp = b.timestamp ∧ a.id ≤ b.id)) l) :
    List.Pairwise (fun a b => b.timestamp < a.timestamp
        ∨ (a.timestamp = b.timestamp ∧ a.id ≤ b.id)) (insertDesc x l) := by
  induction l with
  | nil => simp [insertDesc]
  | cons y ys ih =>
    rcases List.pairwise_cons.mp h with ⟨hy, hys⟩
    by_cases hc : y.timestamp < x.timestamp
    · rw [insertDesc_cons_pos hc]
      refine List.pairwise_cons.mpr ⟨?_, h⟩
      intro z hz
      rcases List.mem_cons.mp hz with hzy | hzys
      · exact Or.inl (hzy ▸ hc)
      · rcases hy z hzys with h1 | h1
        · exact Or.inl (Nat.lt_trans h1 hc)
        · exact Or.inl (h1.1 ▸ hc)
    · rw [insertDesc_cons_neg hc]
      refine List.pairwise_cons.mpr
        ⟨?_, ih (fun w hw => hid w (List.mem_cons_of_mem _ hw)) hys⟩
      intro z hz
      rcases mem_insertDesc hz with hzx | hzys
      · subst hzx
        rcases Nat.lt_or_ge z.timestamp y.timestamp with h1 | h1
        · exact Or.inl h1
        · exact Or.inr ⟨Nat.le_antisymm h1 (Nat.not_lt.mp hc),
            Nat.le_of_lt (hid y (List.mem_cons_self y ys))⟩
      · exact hy z hzys

/-- Helper: sorting rows whose ids strictly increase (the append-only id
order of the logs table) produces the lexicographic order. -/
theorem pairwise_sortAux_lex : ∀ (l acc : List LogEntry),
    List.Pairwise (fun a b => a.id < b.id) l →
    List.Pairwise (fun a b => b.timestamp < a.timestamp
        ∨ (a.timestamp = b.timestamp ∧ a.id ≤ b.id)) acc →
    (∀ y ∈ acc, ∀ x ∈ l, y.id < x.id) →
    List.Pairwise (fun a b => b.timestamp < a.timestamp
        ∨ (a.timestamp = b.timestamp ∧ a.id ≤ b.id))
      (l.foldl (fun acc x => insertDesc x acc) acc) := by
  intro l
  induction l with
  | nil => intro acc _ hacc _; exact hacc
  | cons x xs ih =>
    intro acc hl hacc hcross
    rw [List.foldl_cons]
    rcases List.pairwise_cons.mp hl with ⟨hx, hxs⟩
    refine ih _ hxs
      (pairwise_insertDesc_lex (fun y hy => hcross y hy x (List.mem_cons_self x xs)) hacc) ?_
    intro y hy z hz
    rcases mem_insertDesc hy with hyx | hyacc
    · exact hyx ▸ hx z hz
    · exact hcross y hyacc z (List.mem_cons_of_mem _ hz)

/-- Helper: lexicographic sortedness of the full sort. -/
theorem pairwise_sort_lex {l : List LogEntry}
    (hl : List.Pairwise (fun a b => a.id < b.id) l) :
    List.Pairwise (fun a b => b.timestamp < a.timestamp
        ∨ (a.timestamp = b.timestamp ∧ a.id ≤ b.id)) (sortByTimestampDesc l) :=
  pairwise_sortAux_lex l [] hl List.Pairwise.nil (by simp)

/-- Claim C9: the per-device log query returns only entries of that device,
at most 50 of them, ordered most recent first by timestamp with ties broken
by insertion (id) order — given that the logs table lists rows in ascending
id order, as the append-only autoincrement insertions produce. -/
theorem recent_ordering (db : DB) (deviceId : Nat)
    (hids : List.Pairwise (fun a b => a.id < b.id) db.logs) :
    List.Pairwise (fun a b => b.timestamp < a.timestamp
        ∨ (a.timestamp = b.timestamp ∧ a.id ≤ b.id)) (recent db deviceId)
    ∧ (recent db deviceId).length ≤ 50
    ∧ ∀ e ∈ recent db deviceId, e.device_id = deviceId := by
  refine ⟨?_, ?_, ?_⟩
  · exact List.Pairwise.sublist (List.take_sublist 50 _)
      (pairwise_sort_lex (List.Pairwise.filter _ hids))
  · rw [recent, List.length_take]
    exact min_le_left 50 _
  · intro e he
    have h2 := mem_sortByTimestampDesc (List.mem_of_mem_take he)
    have h3 := (List.mem_filter.mp h2).2
    simpa using h3

/-- Logs table used by the C9 witness: ids ascend, two rows tie at
timestamp 300. -/
def logsSample : List LogEntry :=
  [ { id := 1, device_id := 1, status := "offline", latency := 0, timestamp := 100 },
    { id := 2, device_id := 1, status := "online", latency := 3, timestamp := 300 },
    { id := 3, device_id := 2, status := "offline", latency := 0, timestamp := 200 },
    { id := 4, device_id := 1, status := "offline", latency := 0, timestamp := 300 } ]

/-- Store with the sample logs. -/
def dbLogs : DB :=
  { devices := [backupServer], logs := logsSample, nextLogId := 5, events := [] }

/-- Witness for C9 applied at the sample store. -/
theorem recent_ordering_witness : (recent dbLogs 1).length ≤ 50 :=
  (recent_ordering dbLogs 1 (by decide)).2.1

/-- Claim C8 (modelled from the spec, as the route is absent from the
source): `recent_global` returns only offline log entries, ordered most
recent first, and at most `limit` of them. -/
theorem recent_global_spec (db : DB) (limit : Nat) :
    ((recent_global db limit).all (fun p => p.1.status == "offline")) = true
    ∧ List.Pairwise (fun p q => q.1.timestamp ≤ p.1.timestamp) (recent_global db limit)
    ∧ (recent_global db limit).length ≤ limit := by
  have hfst : ∀ e : LogEntry,
      (match db.devices.find? (fun (d : Device) => d.id == e.device_id) with
       | some d => (e, d.name, d.ip)
       | none => (e, "", "")).1 = e := by
    intro e
    cases db.devices.find? (fun (d : Device) => d.id == e.device_id) <;> rfl
  refine ⟨?_, ?_, ?_⟩
  · rw [List.all_eq_true]
    intro p hp
    rcases List.mem_map.mp hp with ⟨e, he, hep⟩
    have h3 := (List.mem_filter.mp (mem_sortByTimestampDesc (List.mem_of_mem_take he))).2
    have hp1 : p.1 = e := by rw [← hep]; exact hfst e
    rw [hp1]
    exact h3
  · rw [recent_global, List.pairwise_map]
    refine List.Pairwise.imp ?_
      (List.Pairwise.sublist (List.take_sublist limit _) (pairwise_sort_ts _))
    intro a b h
    rw [hfst a, hfst b]
    exact h
  · rw [recent_global, List.length_map, List.length_take]
    exact min_le_left limit _
